import Mathlib

/-!
Verification of the single-page-application router of this repository.

The development shallowly embeds the routing logic of
`nicegui/single_page_router.py` and `nicegui/elements/router_frame.py`:

* pure computations (path splitting, glob matching, keyword filtering) become
  Lean functions;
* the stateful navigation methods become functions producing an explicit,
  ordered list of `Effect`s (browser-history writes, target-url updates,
  content swaps, title writes, hook invocations);
* Python exceptions and the recursion of `resolve_target` are made explicit
  through `Except` and a fuel argument.

The classes `SinglePageTarget` (file `nicegui/single_page_target.py`) and
`SinglePageRouterConfig` (file `nicegui/single_page_router_config.py`) are
referenced by the sources but their files are not part of the checked tree;
where their behaviour matters it is modelled from the specification and the
corresponding definitions carry a `Modelled from the spec:` note.
-/

/-- Values stored in the `user_data` / keyword-argument dictionaries that the
router threads through hooks and builders.  Python passes arbitrary objects;
for the routing logic only strings, numbers and router references occur in
the merged dictionaries built by `navigate_to`. -/
inductive Value where
  | vStr (s : String)
  | vNat (n : Nat)
  | vRouter (id : Nat)
  | vNone
deriving DecidableEq, Repr

/-- A Python `dict` with string keys, kept as an insertion-ordered
association list with unique keys (the invariant Python dictionaries
maintain). -/
abbrev UserData := List (String × Value)

/-- `d[k] = v` on an insertion-ordered dictionary: an existing key is updated
in place, a new key is appended at the end (Python dict semantics). -/
def dictSet (d : UserData) (k : String) (v : Value) : UserData :=
  if d.any (fun kv => kv.1 == k) then
    d.map (fun kv => if kv.1 == k then (k, v) else kv)
  else
    d ++ [(k, v)]

/-- The Python dictionary merge `a | b`: entries of `b` win over entries of
`a` with the same key. -/
def dictMerge (a b : UserData) : UserData :=
  b.foldl (fun acc kv => dictSet acc kv.1 kv.2) a

/-- A builder function as the router sees it: an identity, the list of
parameter names its signature declares (`inspect.signature(builder)` in
`RouterFrame.update_content`), and the child routers that executing the
builder registers on the currently navigating router (nested `ui.outlet`
instantiations).  The distinguished `pageNotFound` constructor is the
built-in `SinglePageRouter._page_not_found` builder, which takes no
parameters and creates no child routers. -/
inductive BuilderRef where
  | user (id : Nat) (params : List String) (child_routers : List (String × Nat))
  | pageNotFound
deriving DecidableEq, Repr

/-- The declared parameter names of a builder.  `_page_not_found` in
`single_page_router.py` is declared with an empty parameter list. -/
def BuilderRef.params : BuilderRef → List String
  | .user _ ps _ => ps
  | .pageNotFound => []

/-- A matched route entry (`target.router_path`).  Modelled from the spec:
`RouteEntry: { pattern, builder, title, is_outlet, on_open }` — the class
itself lives in a file outside the checked tree.  Its `on_open` hook is
referenced by an identifier resolved through an `EntryHookEnv` (a function
table) because a hook receives and returns whole `SinglePageTarget` values
and a direct function field would make the two types mutually recursive. -/
structure RouterPath where
  path : String
  title : Option String
  is_outlet : Bool
  on_open_id : Option Nat
deriving DecidableEq, Repr

/-- The immutable result of resolving a URL.  Modelled from the spec:
`single_page_target.py` is outside the checked tree; the field list follows
§3 of the specification (`original_path`, `valid`, `router_path`, `builder`,
`title`, `path_args`, `query_args`, `fragment`, `router` back-reference,
`on_pre_update` / `on_post_update`).  The back-reference and the
per-navigation hooks are kept as identifiers. -/
structure SinglePageTarget where
  original_path : String
  valid : Bool
  router_path : Option RouterPath
  builder : Option BuilderRef
  title : Option String
  path_args : List (String × String)
  query_args : List (String × String)
  fragment : Option String
  router : Option Nat
  on_pre_update : Option Nat
  on_post_update : Option Nat
deriving DecidableEq, Repr

/-- One node of the declarative route tree.  Modelled from the spec:
`single_page_router_config.py` is outside the checked tree; per §4.4 a
config carries its `base_path`, a resolver over its own route table
(`resolve_target(path) → Target`), an optional `on_open` hook
(`on_open(target) → Target`, invoked with the target only, cf.
`single_page_router.py` line 127) and a `handle_navigate(path) →
Optional[path]` hook. -/
structure SinglePageRouterConfigData where
  base_path : String
  resolve : String → SinglePageTarget
  on_open : Option (SinglePageTarget → SinglePageTarget)
  handle_navigate : String → Option String

/-- A `SinglePageRouterConfig` seen from one node: the node itself plus its
chain of ancestors (`parent_config`, `parent_config.parent_config`, …,
innermost first).  The config tree is finite and immutable after the
declaration phase (§4.4), so the parent chain is a plain list. -/
structure SinglePageRouterConfig where
  data : SinglePageRouterConfigData
  parent_chain : List SinglePageRouterConfigData

def SinglePageRouterConfig.base_path (c : SinglePageRouterConfig) : String :=
  c.data.base_path

def SinglePageRouterConfig.resolve (c : SinglePageRouterConfig) : String → SinglePageTarget :=
  c.data.resolve

def SinglePageRouterConfig.handle_navigate (c : SinglePageRouterConfig) :
    String → Option String :=
  c.data.handle_navigate

/-- The `while config is not None` chain of `resolve_target`
(lines 124-130): the config itself followed by its ancestors. -/
def SinglePageRouterConfig.chain (c : SinglePageRouterConfig) :
    List SinglePageRouterConfigData :=
  c.data :: c.parent_chain

/-- The argument of `navigate_to` / `resolve_target`: either a URL string or
an already resolved `SinglePageTarget` (the Python code distinguishes the two
with `isinstance` checks). -/
inductive NavTarget where
  | str (s : String)
  | target (t : SinglePageTarget)

/-- The live router instance (`SinglePageRouter`).  The mutable object graph
is flattened: the router's frame state (`router_frame.target_url`,
`router_frame.user_data`) is inlined, the parent chain is expressed through
an external `parent : Nat → Option Nat` map over router identifiers, and the
instance hooks `_on_navigate` / `_on_resolve` / `_on_open` are optional
function fields exactly as in `__init__`. -/
structure SinglePageRouter where
  id : Nat
  router_config : SinglePageRouterConfig
  base_path : String
  user_data : UserData
  child_routers : List (String × Nat)
  use_browser_history : Bool
  change_title : Bool
  frame_target_url : String
  frame_user_data : UserData
  on_navigate : Option (String → Option String)
  on_resolve : Option (NavTarget → Option SinglePageTarget)
  on_open : Option (UserData → SinglePageTarget → SinglePageTarget)

/-! ### `fnmatch` glob matching

`navigate_to` decides child-router delegation with
`fnmatch(target, path_mask)` from the Python standard library: `*` matches
any run of characters, `?` any single character, `[seq]` / `[!seq]` a
character (not) in a set which may contain `a-z` ranges; an unterminated
`[` is a literal.  (`fnmatch` also case-normalises via `os.path.normcase`,
the identity on POSIX.) -/

/-- One token of a glob pattern. -/
inductive GlobTok where
  | lit (c : Char)
  | anyOne
  | star
  | cls (neg : Bool) (raw : List Char)
deriving DecidableEq, Repr

/-- Scan for the `]` closing a character class; returns the accumulated raw
class characters and the remainder, or `none` if the class is unterminated. -/
def scanClass (acc : List Char) : List Char → Option (List Char × List Char)
  | [] => none
  | ']' :: rest => some (acc.reverse, rest)
  | c :: rest => scanClass (c :: acc) rest

/-- Tokenise a glob pattern, mirroring `fnmatch.translate`: after `[` an
optional `!` negates the class and a first `]` is a literal member; if no
closing `]` exists the `[` itself is a literal character.  The `fuel`
argument makes the recursion structural (each step consumes at least one
pattern character, so `cs.length` fuel always suffices). -/
def parseGlobFuel : Nat → List Char → List GlobTok
  | 0, _ => []
  | fuel + 1, cs =>
    match cs with
    | [] => []
    | '*' :: rest => GlobTok.star :: parseGlobFuel fuel rest
    | '?' :: rest => GlobTok.anyOne :: parseGlobFuel fuel rest
    | '[' :: '!' :: ']' :: rest =>
      match scanClass [']'] rest with
      | some (raw, rest2) => GlobTok.cls true raw :: parseGlobFuel fuel rest2
      | none => GlobTok.lit '[' :: parseGlobFuel fuel ('!' :: ']' :: rest)
    | '[' :: '!' :: rest =>
      match scanClass [] rest with
      | some (raw, rest2) => GlobTok.cls true raw :: parseGlobFuel fuel rest2
      | none => GlobTok.lit '[' :: parseGlobFuel fuel ('!' :: rest)
    | '[' :: ']' :: rest =>
      match scanClass [']'] rest with
      | some (raw, rest2) => GlobTok.cls false raw :: parseGlobFuel fuel rest2
      | none => GlobTok.lit '[' :: parseGlobFuel fuel (']' :: rest)
    | '[' :: rest =>
      match scanClass [] rest with
      | some (raw, rest2) => GlobTok.cls false raw :: parseGlobFuel fuel rest2
      | none => GlobTok.lit '[' :: parseGlobFuel fuel rest
    | c :: rest => GlobTok.lit c :: parseGlobFuel fuel rest

def parseGlob (cs : List Char) : List GlobTok :=
  parseGlobFuel cs.length cs

/-- Does a character belong to the raw member list of a character class?
`a-b` denotes a range; a `-` without both neighbours is a literal. -/
def classMatch (c : Char) : List Char → Bool
  | a :: '-' :: b :: rest => (a ≤ c && c ≤ b) || classMatch c rest
  | a :: rest => a == c || classMatch c rest
  | [] => false

/-- Match a tokenised glob pattern against a character list.  Each recursive
call consumes a token or a character, so `toks.length + s.length + 1` fuel
always suffices. -/
def matchToksFuel : Nat → List GlobTok → List Char → Bool
  | 0, _, _ => false
  | fuel + 1, toks, s =>
    match toks, s with
    | [], [] => true
    | [], _ :: _ => false
    | GlobTok.star :: ts, s =>
      matchToksFuel fuel ts s ||
        (match s with
         | [] => false
         | _ :: s2 => matchToksFuel fuel (GlobTok.star :: ts) s2)
    | GlobTok.anyOne :: ts, _ :: s => matchToksFuel fuel ts s
    | GlobTok.anyOne :: _, [] => false
    | GlobTok.lit a :: ts, c :: s => a == c && matchToksFuel fuel ts s
    | GlobTok.lit _ :: _, [] => false
    | GlobTok.cls neg raw :: ts, c :: s =>
      (classMatch c raw != neg) && matchToksFuel fuel ts s
    | GlobTok.cls _ _ :: _, [] => false

/-- `fnmatch.fnmatch(name, pattern)` as used by `navigate_to`. -/
def fnmatch (name pattern : String) : Bool :=
  let toks := parseGlob pattern.data
  matchToksFuel (toks.length + name.data.length + 1) toks name.data

/-- Python's `str.rstrip('/')`. -/
def rstripSlash (s : String) : String :=
  String.mk ((s.data.reverse.dropWhile (fun c => c == '/')).reverse)

/-- The child-delegation scan of `navigate_to` (lines 161-164): the first
registered child router whose mask matches the target — either exactly or
with the mask extended by `/*` — receives the navigation. -/
def childMatch (children : List (String × Nat)) (target : String) : Option (String × Nat) :=
  match children with
  | [] => none
  | (path_mask, cid) :: rest =>
    if fnmatch target path_mask || fnmatch target (rstripSlash path_mask ++ "/*") then
      some (path_mask, cid)
    else
      childMatch rest target

/-! ### `resolve_target` (single_page_router.py lines 95-131) -/

/-- Outcomes other than a resolved target: `outOfFuel` is the modelling
artifact standing for nonterminating recursion; `attrError` is the
`AttributeError` Python raises at line 120 (`rp.on_open`) when the
router-instance `on_open` hook returned a same-path target whose
`router_path` is `None`. -/
inductive ResolveErr where
  | outOfFuel
  | attrError
deriving DecidableEq, Repr

/-- Function table resolving the `on_open` hook identifiers stored in route
entries (`rp.on_open` at line 121 receives the target and the merged
`user_data` keyword arguments). -/
abbrev EntryHookEnv := Nat → SinglePageTarget → UserData → SinglePageTarget

/-- Result of the config-chain `on_open` walk: either the chain ran to its
end, or some hook produced a target with a different `original_path` and the
whole resolution must restart on it. -/
inductive WalkRes where
  | done (t : SinglePageTarget)
  | restart (t : SinglePageTarget)

/-- The `while config is not None` loop of `resolve_target`
(lines 124-130): call each ancestor config's `on_open` hook in turn,
restarting as soon as one changes `original_path`. -/
def configOpenWalk (original_path : String) :
    List SinglePageRouterConfigData → SinglePageTarget → WalkRes
  | [], t => WalkRes.done t
  | cfg :: rest, t =>
    match cfg.on_open with
    | some h =>
      let t2 := h t
      if t2.original_path ≠ original_path then WalkRes.restart t2
      else configOpenWalk original_path rest t2
    | none => configOpenWalk original_path rest t

/-- Lines 109-110 of `resolve_target`: a valid target without a router
back-reference receives the resolving router as its `router`. -/
def routerAssign (r : SinglePageRouter) (t : SinglePageTarget) : SinglePageTarget :=
  if t.valid && t.router.isNone then { t with router := some r.id } else t

/-- `SinglePageRouter.resolve_target` (lines 95-131).  The Python recursion
(`return self.resolve_target(target, user_data)` after a hook changed
`original_path`) is given an explicit fuel; exhausting the fuel returns
`ResolveErr.outOfFuel`.  Control flow follows the source line by line:

* the custom `_on_resolve` handler is tried first and wins when it returns a
  non-null target (lines 102-105);
* an input that already is a `SinglePageTarget` is returned as-is
  (lines 106-107);
* otherwise the config resolver runs (line 108) and, for a valid target
  without a router back-reference, the back-reference is set
  (lines 109-110); the `target is None` check of lines 111-112 is
  unreachable because the config resolver always returns a target;
* when a route entry was matched, the router-instance `on_open` hook, the
  entry's `on_open` hook and every ancestor config's `on_open` hook run in
  order, each followed by the `original_path` comparison that restarts the
  whole resolution recursively (lines 113-130).

The router-instance hook call at line 116 passes the merged
`user_data | {target}` keyword dictionary; here the hook receives `user_data`
and the target as separate arguments (`RouterFrame.run_safe` of line 116 is
applied to the hook's already-computed result and is modelled as the
identity on non-callables — its source is outside the checked tree). -/
def resolveTargetFuel (ehook : EntryHookEnv) :
    Nat → SinglePageRouter → NavTarget → UserData → Except ResolveErr SinglePageTarget
  | 0, _, _, _ => Except.error ResolveErr.outOfFuel
  | fuel + 1, r, tgt, user_data =>
    let custom : Option SinglePageTarget :=
      match r.on_resolve with
      | some f => f tgt
      | none => none
    match custom with
    | some resolved_target => Except.ok resolved_target
    | none =>
      match tgt with
      | NavTarget.target t => Except.ok t
      | NavTarget.str s =>
        let t0 := routerAssign r (r.router_config.resolve s)
        match t0.router_path with
        | none => Except.ok t0
        | some _ =>
          let original_path := t0.original_path
          let t1 :=
            match r.on_open with
            | some hk => hk user_data t0
            | none => t0
          if t1.original_path ≠ original_path then
            resolveTargetFuel ehook fuel r (NavTarget.target t1) user_data
          else
            match t1.router_path with
            | none => Except.error ResolveErr.attrError
            | some rp =>
              let t2 :=
                match rp.on_open_id with
                | some hid => ehook hid t1 user_data
                | none => t1
              if t2.original_path ≠ original_path then
                resolveTargetFuel ehook fuel r (NavTarget.target t2) user_data
              else
                match configOpenWalk original_path r.router_config.chain t2 with
                | WalkRes.done t3 => Except.ok t3
                | WalkRes.restart t3 =>
                  resolveTargetFuel ehook fuel r (NavTarget.target t3) user_data

/-! ### `handle_navigate` (lines 133-148) -/

/-- `SinglePageRouter.handle_navigate`: the router's own `_on_navigate` hook
may veto (`None`) or rewrite the target; then the config's `handle_navigate`
may veto or rewrite it in turn. -/
def SinglePageRouter.handle_navigate (r : SinglePageRouter) (target : String) : Option String :=
  let afterHook : Option String :=
    match r.on_navigate with
    | some f => f target
    | none => some target
  match afterHook with
  | none => none
  | some t =>
    match r.router_config.handle_navigate t with
    | none => none
    | some new_target => if new_target ≠ t then some new_target else some t

/-! ### `_update_target_url` (lines 267-276) -/

/-- `PATH_RESOLVING_MAX_RECURSION = 100` (single_page_router.py line 9). -/
def PATH_RESOLVING_MAX_RECURSION : Nat := 100

/-- The routers visited (and written to) by `_update_target_url`
(lines 267-276): starting from the navigating router the loop writes
`router_frame.target_url` and climbs to the parent, for at most
`PATH_RESOLVING_MAX_RECURSION` iterations; when the iteration budget runs
out the `for` loop simply ends — there is no error path. -/
def updateTargetUrlVisits (parent : Nat → Option Nat) : Nat → Nat → List Nat
  | _, 0 => []
  | cur, n + 1 =>
    cur ::
      (match parent cur with
       | none => []
       | some p => updateTargetUrlVisits parent p n)

/-- Modelled from the spec: §4.3 step 5 and §7 require the ancestor
`target_url` propagation to "treat exceeding the cap as a configuration
error"; this spec-side variant errors out when the chain has not ended
within the iteration budget.  It exists solely to be compared with
`updateTargetUrlVisits`, the embedding of the actual code. -/
def updateTargetUrlSpecModel (parent : Nat → Option Nat) :
    Nat → Nat → Except String (List Nat)
  | _, 0 => Except.error "configuration error: parent chain exceeds the iteration cap"
  | cur, n + 1 =>
    match parent cur with
    | none => Except.ok [cur]
    | some p =>
      match updateTargetUrlSpecModel parent p n with
      | Except.ok tail => Except.ok (cur :: tail)
      | Except.error e => Except.error e

/-! ### `navigate_to` (lines 150-200) as an effect trace -/

/-- One observable step of `navigate_to`, in the order the Python method
performs them. -/
inductive Effect where
  | delegate (childId : Nat) (target : String) (server_side : Bool)
  | setTargetUrl (routerId : Nat) (url : String)
  | runJs (code : String)
  | runPreUpdate (hookId : Nat)
  | clearRouter (routerId : Nat)
  | updateContent (routerId : Nat) (builder : Option BuilderRef)
      (title : Option String) (fragment : Option String) (sync : Bool)
  | pageTitle (title : String)
  | runPostUpdate (hookId : Nat)
deriving DecidableEq, Repr

/-- The JavaScript pushed for browser-history updates (line 179). -/
def pushStateCode (target_url : String) : String :=
  "window.history.pushState(\x7bpage: \"" ++ target_url ++ "\"\x7d, \"\", \"" ++
    target_url ++ "\");"

/-- The JavaScript for fragment-only navigation (line 182). -/
def fragmentCode (fragment : String) : String :=
  "window.location.href = \"#" ++ fragment ++ "\";"

/-- The canned target substituted at line 185:
`SinglePageTarget(builder=self._page_not_found, title='Page not found')`.
Modelled from the spec for the constructor defaults (`single_page_target.py`
is outside the checked tree): a freshly constructed target is valid, carries
no matched route entry, no arguments, no fragment and no per-navigation
hooks. -/
def pageNotFoundTarget : SinglePageTarget :=
  { original_path := ""
    valid := true
    router_path := none
    builder := some BuilderRef.pageNotFound
    title := some "Page not found"
    path_args := []
    query_args := []
    fragment := none
    router := none
    on_pre_update := none
    on_post_update := none }

/-- The `handler_kwargs` dictionary assembled at lines 168-170:
`get_user_data() | self.user_data | self.router_frame.user_data |
{previous_url_path} ` followed by the `url_path` assignment.  The ambient
`get_user_data()` walk over the context slot stack is passed in as
`ambient`. -/
def handler_kwargs_base (ambient : UserData) (r : SinglePageRouter) (tgt : NavTarget) :
    UserData :=
  let d :=
    dictMerge (dictMerge (dictMerge ambient r.user_data) r.frame_user_data)
      [("previous_url_path", Value.vStr r.frame_target_url)]
  dictSet d "url_path"
    (Value.vStr (match tgt with
                 | NavTarget.str s => s
                 | NavTarget.target t => t.original_path))

/-- The tail of `navigate_to` after resolution succeeded with a renderable
target (lines 186-200): run the accumulated JavaScript, fire `on_pre_update`,
clear the router, swap the frame content and finally set the page title when
this router is a leaf.  `self.clear()` at line 192 empties `child_routers`
before the swap, so the `len(self.child_routers) == 0` test at line 194 sees
the children registered *during* the swap: in synchronous mode these are the
child routers the builder creates, in background mode the build has not run
yet and the set is still empty.  The kwargs merge of line 188 feeds the
hooks and the builder, which the trace records by identity, so the merged
dictionary itself does not appear in the effects. -/
def swapEffects (r : SinglePageRouter) (app_config_title : String)
    (t : SinglePageTarget) (js1 : String) (sync : Bool) : List Effect :=
  let jsE := if js1.length > 0 then [Effect.runJs js1] else []
  let preE :=
    match t.on_pre_update with
    | some hid => [Effect.runPreUpdate hid]
    | none => []
  let builder_children : List (String × Nat) :=
    match t.builder with
    | some (BuilderRef.user _ _ cs) => cs
    | _ => []
  let children_after := if sync then builder_children else ([] : List (String × Nat))
  let titleE :=
    if r.change_title && t.builder.isSome && children_after.isEmpty then
      [Effect.pageTitle (t.title.getD app_config_title)]
    else []
  let postE :=
    match t.on_post_update with
    | some hid => [Effect.runPostUpdate hid]
    | none => []
  jsE ++ preE ++
    [Effect.clearRouter r.id,
     Effect.updateContent r.id t.builder t.title t.fragment sync] ++
    titleE ++ postE

/-- The shared path of `navigate_to` after child delegation and
`handle_navigate` (lines 168-200): build the kwargs, resolve the target
(fuel 2 suffices for the recursion of `resolve_target`, see
`resolveTargetFuel_two_enough`), suppress invalid targets, propagate the
target url to the ancestors, emit history/fragment JavaScript and perform
the content swap, substituting the canned not-found target for a
builder-less, fragment-less resolution (lines 180-185). -/
def navigateCore (ehook : EntryHookEnv) (parent : Nat → Option Nat) (ambient : UserData)
    (app_config_title : String) (r : SinglePageRouter) (tgt : NavTarget)
    (sync history : Bool) : Except ResolveErr (List Effect) :=
  let handler_kwargs := handler_kwargs_base ambient r tgt
  match resolveTargetFuel ehook 2 r tgt handler_kwargs with
  | Except.error e => Except.error e
  | Except.ok t =>
    if !t.valid then Except.ok []
    else
      let target_url := t.original_path
      let urlUpdates :=
        (updateTargetUrlVisits parent r.id PATH_RESOLVING_MAX_RECURSION).map
          (fun i => Effect.setTargetUrl i target_url)
      let js1 := if history && r.use_browser_history then pushStateCode target_url else ""
      match t.builder with
      | none =>
        match t.fragment with
        | some frag => Except.ok (urlUpdates ++ [Effect.runJs (js1 ++ fragmentCode frag)])
        | none =>
          Except.ok (urlUpdates ++ swapEffects r app_config_title pageNotFoundTarget js1 sync)
      | some _ => Except.ok (urlUpdates ++ swapEffects r app_config_title t js1 sync)

/-- `SinglePageRouter.navigate_to` (lines 150-200).  For a string target the
registered child routers are scanned first (lines 160-164) and a glob match
delegates the navigation verbatim (only `target` and `server_side` are
forwarded); otherwise `handle_navigate` may veto (lines 165-167) before the
shared resolution/swap path runs. -/
def SinglePageRouter.navigate_to (ehook : EntryHookEnv) (parent : Nat → Option Nat)
    (ambient : UserData) (app_config_title : String) (r : SinglePageRouter)
    (target : NavTarget) (server_side sync history : Bool) :
    Except ResolveErr (List Effect) :=
  match target with
  | NavTarget.str s =>
    match childMatch r.child_routers s with
    | some (_, cid) => Except.ok [Effect.delegate cid s server_side]
    | none =>
      match r.handle_navigate s with
      | none => Except.ok []
      | some s2 => navigateCore ehook parent ambient app_config_title r (NavTarget.str s2) sync history
  | NavTarget.target t =>
    navigateCore ehook parent ambient app_config_title r (NavTarget.target t) sync history

/-! ### `RouterFrame.update_content` (router_frame.py lines 124-155) -/

/-- The keyword filtering of the nested `exec_builder`
(router_frame.py lines 134-138): `inspect.signature(builder)` yields the
declared parameter names and the dict comprehension keeps exactly the
entries of `builder_kwargs` whose key is among them. -/
def exec_builder_kwargs {V : Type} (params : List String)
    (builder_kwargs : List (String × V)) : List (String × V) :=
  builder_kwargs.filter (fun kv => params.contains kv.1)

/-- The observable behaviour of one `update_content` call: the page-title
write performed at lines 131-132, the keyword arguments the builder is
invoked with, and the fragment scrolled to after building. -/
structure UpdateContentRun (V : Type) where
  title_write : Option String
  builder_call : List (String × V)
  fragment_js : Option String

/-- `RouterFrame.update_content` (lines 124-155): sets the page title when
`change_title` holds (falling back to `core.app.config.title`), executes the
builder through `exec_builder` with the filtered keyword set, and navigates
to the requested fragment afterwards.  The synchronous and background paths
run the same `exec_builder`; only their scheduling differs. -/
def RouterFrame.update_content {V : Type} (change_title : Bool)
    (app_config_title : String) (builder : BuilderRef)
    (builder_kwargs : List (String × V)) (title : Option String)
    (target_fragment : Option String) : UpdateContentRun V :=
  { title_write := if change_title then some (title.getD app_config_title) else none
    builder_call := exec_builder_kwargs builder.params builder_kwargs
    fragment_js := target_fragment }

/-! ### `SinglePageRouter.__init__` base-path substitution (lines 57-76) -/

/-- Python's `str.split('/')` on the character list (the standard library's
`String.splitOn` is not structurally recursive, so splitting is spelled out
here): an empty string yields one empty segment, every `/` starts a new
segment. -/
def splitOnSlashChars : List Char → List (List Char)
  | [] => [[]]
  | c :: rest =>
    let groups := splitOnSlashChars rest
    if c = '/' then [] :: groups
    else
      match groups with
      | [] => [[c]]
      | g :: gs => (c :: g) :: gs

/-- Python's `str.split('/')`. -/
def splitSlash (s : String) : List String :=
  (splitOnSlashChars s.data).map (fun cs => String.mk cs)

/-- `element.startswith("{") and element.endswith("}")` (line 62). -/
def isParamSeg (element : String) : Bool :=
  element.data.head? == some '\x7b' && element.data.getLast? == some '\x7d'

/-- Lines 61-64: every `{param}` segment of the config base path is replaced
by the segment of the current target url at the same index, when the target
url has that many segments. -/
def substituteParamSegs (target_url_elements : List String) :
    Nat → List String → List String
  | _, [] => []
  | i, element :: rest =>
    (if isParamSeg element && i < target_url_elements.length then
       target_url_elements.getD i element
     else element) :: substituteParamSegs target_url_elements (i + 1) rest

/-- The router's `base_path` after `__init__` (line 74): the config base
path with `{param}` segments substituted from the target url. -/
def routerInitBasePath (config_base_path target_url : String) : String :=
  String.intercalate "/"
    (substituteParamSegs (splitSlash target_url) 0 (splitSlash config_base_path))

/-- Lines 69-72: every `*` segment of an included-path mask is replaced by
the segment of the (already substituted) base path at the same index. -/
def substituteStarSegs (base_path_elements : List String) :
    Nat → List String → List String
  | _, [] => []
  | j, element :: rest =>
    (if element == "*" && j < base_path_elements.length then
       base_path_elements.getD j element
     else element) :: substituteStarSegs base_path_elements (j + 1) rest

/-- The included-path masks after `__init__` (lines 66-73), substituted
against the already parameter-resolved base path (lines 61-64 run first). -/
def routerInitIncludedPaths (config_base_path target_url : String)
    (included_paths : List String) : List String :=
  let base_path_elements :=
    substituteParamSegs (splitSlash target_url) 0 (splitSlash config_base_path)
  included_paths.map (fun path =>
    String.intercalate "/" (substituteStarSegs base_path_elements 0 (splitSlash path)))

/-! ### Title propagation across nested pure-container outlets

Modelled from the spec: the machinery instantiating a nested outlet's child
router inside its parent's builder (the `ui.outlet` / `outlet.view`
decorators and `SinglePageRouterConfig.build_page`) is outside the checked
tree.  Per §2 and §4.3 a navigation on an outlet chain behaves like this
composition of the embedded pieces:

* the navigating router calls `RouterFrame.update_content`, whose first
  action writes the page title (router_frame.py lines 131-132,
  `change_title` defaults to `True`);
* in synchronous mode the builder runs inside `update_content`, creating the
  child router whose own navigation recursively renders the nested content;
  back in `navigate_to` the parent then sees its freshly registered child
  router and skips its own title write (single_page_router.py lines
  194-198);
* in background mode `update_content` only schedules the build, so
  `navigate_to` still sees an empty `child_routers` set and writes the title
  itself (lines 194-198) — but the scheduled build, and with it every title
  write of the descendant, runs strictly afterwards on the session's event
  queue (§5: navigation and content building are non-overlapping units of
  work).
-/

/-- A chain of pure-container outlets with a single leaf view underneath. -/
inductive OutletTree where
  | view (title : Option String)
  | outlet (title : Option String) (child : OutletTree)

/-- The title carried by the leaf view of the chain. -/
def leafTitleOf : OutletTree → Option String
  | OutletTree.view t => t
  | OutletTree.outlet _ c => leafTitleOf c

/-- The ordered sequence of `ui.page_title` writes a navigation performs on
an outlet chain (title-changing enabled everywhere, as the claim assumes):
each router's frame writes first (router_frame.py line 131), a leaf router
writes again from `navigate_to` (single_page_router.py line 198), a
container writes from `navigate_to` only in background mode — and in that
mode the descendant's writes follow it on the event queue. -/
def navTitleTrace (app_config_title : String) (sync : Bool) : OutletTree → List String
  | OutletTree.view t =>
    [t.getD app_config_title, t.getD app_config_title]
  | OutletTree.outlet t child =>
    if sync then
      t.getD app_config_title :: navTitleTrace app_config_title sync child
    else
      t.getD app_config_title :: t.getD app_config_title ::
        navTitleTrace app_config_title sync child

/-- The last element of a write sequence — the title that remains on the
page once the navigation has settled. -/
def lastWrite : List String → Option String
  | [] => none
  | [x] => some x
  | _ :: y :: ys => lastWrite (y :: ys)

/-! ### Shared concrete fixtures for witnesses -/

/-- A route entry without an `on_open` hook. -/
def demoEntry : RouterPath :=
  { path := "/old", title := some "Old", is_outlet := false, on_open_id := none }

/-- A resolver representing a route table on which every path matches a
view. -/
def demoResolve (s : String) : SinglePageTarget :=
  { original_path := s
    valid := true
    router_path := some demoEntry
    builder := some (BuilderRef.user 1 ["menu_drawer"] [])
    title := some "T"
    path_args := []
    query_args := []
    fragment := none
    router := none
    on_pre_update := none
    on_post_update := none }

def demoConfigData : SinglePageRouterConfigData :=
  { base_path := "/"
    resolve := demoResolve
    on_open := none
    handle_navigate := fun s => some s }

def demoConfig : SinglePageRouterConfig :=
  { data := demoConfigData, parent_chain := [] }

def demoRouter : SinglePageRouter :=
  { id := 0
    router_config := demoConfig
    base_path := "/"
    user_data := []
    child_routers := []
    use_browser_history := true
    change_title := true
    frame_target_url := "/"
    frame_user_data := [("router", Value.vRouter 0)]
    on_navigate := none
    on_resolve := none
    on_open := none }

/-- Entry-hook table with no registered hooks. -/
def trivialEntryHooks : EntryHookEnv := fun _ t _ => t

/-! ### C5 — keyword filtering in `update_content` -/

/-- C5: `update_content` invokes the builder with exactly those entries of
the merged keyword dictionary whose keys are among the builder's declared
parameter names; every other entry is dropped, and no key outside the
declared set ever reaches the builder call, so extra context keys cannot
raise an unexpected-keyword error. -/
theorem update_content_filters_kwargs {V : Type} (change_title : Bool)
    (app_config_title : String) (builder : BuilderRef)
    (builder_kwargs : List (String × V)) (title : Option String)
    (target_fragment : Option String) :
    (RouterFrame.update_content change_title app_config_title builder
        builder_kwargs title target_fragment).builder_call
      = exec_builder_kwargs builder.params builder_kwargs
    ∧ (∀ (k : String) (v : V),
        (k, v) ∈ (RouterFrame.update_content change_title app_config_title builder
            builder_kwargs title target_fragment).builder_call
          ↔ ((k, v) ∈ builder_kwargs ∧ k ∈ builder.params))
    ∧ ((RouterFrame.update_content change_title app_config_title builder
          builder_kwargs title target_fragment).builder_call.all
        (fun kv => builder.params.contains kv.1)) = true := by
  refine ⟨rfl, ?_, ?_⟩
  · intro k v
    simp [RouterFrame.update_content, exec_builder_kwargs, List.mem_filter]
  · simp only [RouterFrame.update_content, exec_builder_kwargs, List.all_eq_true]
    intro kv hkv
    exact (List.mem_filter.mp hkv).2

/-! ### C9 — `{param}` and `*` substitution at router construction -/

theorem substituteParamSegs_get? (target_url_elements : List String) :
    ∀ (base : List String) (i j : Nat),
      (substituteParamSegs target_url_elements i base).get? j
        = (base.get? j).map (fun element =>
            if isParamSeg element && i + j < target_url_elements.length then
              target_url_elements.getD (i + j) element
            else element) := by
  intro base
  induction base with
  | nil => intro i j; simp [substituteParamSegs]
  | cons el rest ih =>
    intro i j
    cases j with
    | zero => simp [substituteParamSegs]
    | succ j =>
      simp only [substituteParamSegs, List.get?]
      rw [ih (i + 1) j]
      have harith : i + 1 + j = i + (j + 1) := by omega
      rw [harith]

theorem substituteStarSegs_get? (base_path_elements : List String) :
    ∀ (path : List String) (i j : Nat),
      (substituteStarSegs base_path_elements i path).get? j
        = (path.get? j).map (fun element =>
            if element == "*" && i + j < base_path_elements.length then
              base_path_elements.getD (i + j) element
            else element) := by
  intro path
  induction path with
  | nil => intro i j; simp [substituteStarSegs]
  | cons el rest ih =>
    intro i j
    cases j with
    | zero => simp [substituteStarSegs]
    | succ j =>
      simp only [substituteStarSegs, List.get?]
      rw [ih (i + 1) j]
      have harith : i + 1 + j = i + (j + 1) := by omega
      rw [harith]

/-- C9: at router construction every `{param}` segment of the config base
path is replaced by the segment of the currently navigated target url at the
same index (segments beyond the target url stay as they are), every `*`
segment of an included-path mask is replaced by the corresponding segment of
the already-resolved base path — and on the specification's example the
config base path `/services/{service_name}` with active target
`/services/compute/vm` yields base path `/services/compute` with the
included mask `/services/*` resolving to `/services/compute`. -/
theorem router_init_substitution :
    (∀ (target_url_elements base : List String) (j : Nat),
      (substituteParamSegs target_url_elements 0 base).get? j
        = (base.get? j).map (fun element =>
            if isParamSeg element && j < target_url_elements.length then
              target_url_elements.getD j element
            else element))
    ∧ (∀ (base_path_elements path : List String) (j : Nat),
      (substituteStarSegs base_path_elements 0 path).get? j
        = (path.get? j).map (fun element =>
            if element == "*" && j < base_path_elements.length then
              base_path_elements.getD j element
            else element))
    ∧ routerInitBasePath "/services/\x7bservice_name\x7d" "/services/compute/vm"
        = "/services/compute"
    ∧ routerInitIncludedPaths "/services/\x7bservice_name\x7d" "/services/compute/vm"
        ["/services/*"]
        = ["/services/compute"] := by
  refine ⟨?_, ?_, by decide, by decide⟩
  · intro tu base j
    simpa using substituteParamSegs_get? tu base 0 j
  · intro bs path j
    simpa using substituteStarSegs_get? bs path 0 j

/-! ### C7 — ancestor `target_url` propagation -/

/-- A degenerate parent map whose chain is cyclic: every router is its own
parent. -/
def selfLoopParent : Nat → Option Nat := fun i => some i

/-- C7 counterexample: on a cyclic parent chain `_update_target_url`
terminates after exactly `PATH_RESOLVING_MAX_RECURSION` writes and returns
normally — the `for` loop just ends, with no error of any kind — whereas the
claimed behaviour (spec §4.3 step 5 / §7, `updateTargetUrlSpecModel`)
surfaces a configuration error on the same input. -/
theorem update_target_url_cycle_is_silent :
    updateTargetUrlVisits selfLoopParent 0 PATH_RESOLVING_MAX_RECURSION
      = List.replicate PATH_RESOLVING_MAX_RECURSION 0
    ∧ updateTargetUrlSpecModel selfLoopParent 0 PATH_RESOLVING_MAX_RECURSION
      = Except.error "configuration error: parent chain exceeds the iteration cap" := by
  constructor
  · rfl
  · rfl

theorem updateTargetUrlVisits_length (parent : Nat → Option Nat) :
    ∀ (n start : Nat), (updateTargetUrlVisits parent start n).length ≤ n := by
  intro n
  induction n with
  | zero => intro start; simp [updateTargetUrlVisits]
  | succ n ih =>
    intro start
    simp only [updateTargetUrlVisits]
    cases parent start with
    | none => simp
    | some p => simpa using ih p

theorem updateTargetUrlVisits_agrees (parent : Nat → Option Nat) :
    ∀ (n start : Nat) (l : List Nat),
      updateTargetUrlSpecModel parent start n = Except.ok l →
      updateTargetUrlVisits parent start n = l := by
  intro n
  induction n with
  | zero => intro start l h; simp [updateTargetUrlSpecModel] at h
  | succ n ih =>
    intro start l h
    simp only [updateTargetUrlSpecModel] at h
    simp only [updateTargetUrlVisits]
    cases hp : parent start with
    | none =>
      rw [hp] at h
      simp at h
      simp [← h]
    | some p =>
      rw [hp] at h
      cases hs : updateTargetUrlSpecModel parent p n with
      | ok tail =>
        simp [hs] at h
        simp [← h, ih p tail hs]
      | error e =>
        simp [hs] at h

/-- C7 amended: `_update_target_url` iterates under the
`PATH_RESOLVING_MAX_RECURSION` cap, so it terminates (with at most that many
target-url writes) even on a cyclic parent chain, and whenever the parent
chain ends within the cap it updates exactly the routers on the chain; but
when the cap is exceeded the loop stops silently — no configuration error is
raised (see `update_target_url_cycle_is_silent`). -/
theorem update_target_url_bounded (parent : Nat → Option Nat) (start : Nat)
    (l : List Nat)
    (h : updateTargetUrlSpecModel parent start PATH_RESOLVING_MAX_RECURSION
      = Except.ok l) :
    (updateTargetUrlVisits parent start PATH_RESOLVING_MAX_RECURSION).length
      ≤ PATH_RESOLVING_MAX_RECURSION
    ∧ updateTargetUrlVisits parent start PATH_RESOLVING_MAX_RECURSION = l := by
  exact ⟨updateTargetUrlVisits_length parent PATH_RESOLVING_MAX_RECURSION start,
    updateTargetUrlVisits_agrees parent PATH_RESOLVING_MAX_RECURSION start l h⟩

/-- A two-router chain: router 0's parent is router 1, which is the root. -/
def twoChainParent : Nat → Option Nat := fun i => if i = 0 then some 1 else none

theorem update_target_url_bounded_witness :
    (updateTargetUrlVisits twoChainParent 0 PATH_RESOLVING_MAX_RECURSION).length
      ≤ PATH_RESOLVING_MAX_RECURSION
    ∧ updateTargetUrlVisits twoChainParent 0 PATH_RESOLVING_MAX_RECURSION = [0, 1] :=
  update_target_url_bounded twoChainParent 0 [0, 1] (by rfl)

/-! ### C8 — leaf title is never overwritten by an ancestor -/

theorem navTitleTrace_ne_nil (app_config_title : String) (sync : Bool)
    (tree : OutletTree) : navTitleTrace app_config_title sync tree ≠ [] := by
  cases tree with
  | view t => simp [navTitleTrace]
  | outlet t c =>
    cases sync <;> simp [navTitleTrace]

theorem lastWrite_cons {x : String} {l : List String} (h : l ≠ []) :
    lastWrite (x :: l) = lastWrite l := by
  cases l with
  | nil => exact absurd rfl h
  | cons y ys => rfl

/-- C8: after navigating to a leaf view nested under any chain of
pure-container outlets (title-changing enabled), the last page-title write
of the whole navigation — synchronous or background — is the leaf target's
title: every ancestor router's and ancestor frame's title write precedes the
descendant's, so the leaf's title is never overwritten afterward. -/
theorem nested_leaf_title_wins (app_config_title : String) (sync : Bool)
    (tree : OutletTree) :
    lastWrite (navTitleTrace app_config_title sync tree)
      = some ((leafTitleOf tree).getD app_config_title) := by
  induction tree with
  | view t => simp [navTitleTrace, leafTitleOf, lastWrite]
  | outlet t c ih =>
    cases sync with
    | false =>
      have hne := navTitleTrace_ne_nil app_config_title false c
      have hstep : navTitleTrace app_config_title false (OutletTree.outlet t c)
          = t.getD app_config_title :: t.getD app_config_title ::
              navTitleTrace app_config_title false c := by
        simp [navTitleTrace]
      rw [hstep, lastWrite_cons (List.cons_ne_nil _ _), lastWrite_cons hne]
      exact ih
    | true =>
      have hne := navTitleTrace_ne_nil app_config_title true c
      have hstep : navTitleTrace app_config_title true (OutletTree.outlet t c)
          = t.getD app_config_title :: navTitleTrace app_config_title true c := by
        simp [navTitleTrace]
      rw [hstep, lastWrite_cons hne]
      exact ih

/-! ### C2 — delegation to a matching child router -/

/-- C2: when a string target matches a registered child router's path mask
(exact glob match or the mask extended by `/*`), `navigate_to` hands the
navigation to that child verbatim and returns at once: the only effect is
the delegation — the parent resolves nothing, writes no history entry,
updates no target url and sets no title. -/
theorem navigate_to_delegates_to_child (ehook : EntryHookEnv)
    (parent : Nat → Option Nat) (ambient : UserData) (app_config_title : String)
    (r : SinglePageRouter) (s : String) (path_mask : String) (cid : Nat)
    (server_side sync history : Bool)
    (h : childMatch r.child_routers s = some (path_mask, cid)) :
    SinglePageRouter.navigate_to ehook parent ambient app_config_title r
        (NavTarget.str s) server_side sync history
      = Except.ok [Effect.delegate cid s server_side] := by
  simp [SinglePageRouter.navigate_to, h]

/-- A parent router with one registered child router (id 7) for the
`/services` prefix. -/
def parentWithChild : SinglePageRouter :=
  { demoRouter with child_routers := [("/services", 7)] }

theorem navigate_to_delegates_to_child_witness :
    SinglePageRouter.navigate_to trivialEntryHooks (fun _ => none) [] "NiceGUI"
        parentWithChild (NavTarget.str "/services/storage") true false true
      = Except.ok [Effect.delegate 7 "/services/storage" true] :=
  navigate_to_delegates_to_child trivialEntryHooks (fun _ => none) [] "NiceGUI"
    parentWithChild "/services/storage" "/services" 7 true false true (by decide)

/-! ### C3 — a navigation veto is a complete no-op -/

/-- C3: when the target is not delegated to a child router and
`handle_navigate` vetoes it (the router's `_on_navigate` hook or the
config's `handle_navigate` returned `None`), `navigate_to` performs no
effect at all: no content swap, no target-url write on this router or any
ancestor, no history push. -/
theorem navigate_to_veto_is_noop (ehook : EntryHookEnv)
    (parent : Nat → Option Nat) (ambient : UserData) (app_config_title : String)
    (r : SinglePageRouter) (s : String) (server_side sync history : Bool)
    (hchild : childMatch r.child_routers s = none)
    (hveto : r.handle_navigate s = none) :
    SinglePageRouter.navigate_to ehook parent ambient app_config_title r
        (NavTarget.str s) server_side sync history
      = Except.ok [] := by
  simp [SinglePageRouter.navigate_to, hchild, hveto]

/-- A router whose `_on_navigate` hook vetoes every navigation. -/
def vetoRouter : SinglePageRouter :=
  { demoRouter with on_navigate := some (fun _ => none) }

theorem navigate_to_veto_is_noop_witness :
    SinglePageRouter.navigate_to trivialEntryHooks (fun _ => none) [] "NiceGUI"
        vetoRouter (NavTarget.str "/admin") true false true
      = Except.ok [] :=
  navigate_to_veto_is_noop trivialEntryHooks (fun _ => none) [] "NiceGUI"
    vetoRouter "/admin" true false true (by decide) (by decide)

/-! ### C10 — an already-resolved target bypasses delegation and hooks -/

/-- C10: a `navigate_to` call whose argument is already a
`SinglePageTarget` skips the child-router delegation scan and the
`on_navigate`/`handle_navigate` veto chain entirely — its outcome does not
depend on the registered children or on the navigation hook — and, with no
custom `_on_resolve` handler set, `resolve_target` returns the given target
unchanged, without invoking any `on_open` hook (router-level, entry-level or
config-level, which are quantified over freely here). -/
theorem navigate_to_resolved_target_skips_hooks (ehook : EntryHookEnv)
    (parent : Nat → Option Nat) (ambient : UserData) (app_config_title : String)
    (r : SinglePageRouter) (cs : List (String × Nat))
    (f : Option (String → Option String)) (t : SinglePageTarget)
    (server_side sync history : Bool) :
    SinglePageRouter.navigate_to ehook parent ambient app_config_title
        { r with child_routers := cs, on_navigate := f } (NavTarget.target t)
        server_side sync history
      = SinglePageRouter.navigate_to ehook parent ambient app_config_title
        { r with child_routers := [], on_navigate := none } (NavTarget.target t)
        server_side sync history
    ∧ (r.on_resolve = none →
        ∀ (fuel : Nat) (ud : UserData),
          resolveTargetFuel ehook (fuel + 1) r (NavTarget.target t) ud
            = Except.ok t) := by
  constructor
  · cases r
    rfl
  · intro hres fuel ud
    simp [resolveTargetFuel, hres]

/-- A router with a path-rewriting `_on_open` hook (which must not run for
already-resolved targets). -/
def hookedRouter : SinglePageRouter :=
  { demoRouter with
      on_open := some (fun _ t => { t with original_path := "/hijack" }) }

/-- An already-resolved target handed to `navigate_to` directly. -/
def demoTarget : SinglePageTarget := demoResolve "/direct"

theorem navigate_to_resolved_target_skips_hooks_witness :
    SinglePageRouter.navigate_to trivialEntryHooks (fun _ => none) [] "NiceGUI"
        { hookedRouter with
            child_routers := [("/services", 7)],
            on_navigate := some (fun _ => none) }
        (NavTarget.target demoTarget) true false true
      = SinglePageRouter.navigate_to trivialEntryHooks (fun _ => none) [] "NiceGUI"
        { hookedRouter with child_routers := [], on_navigate := none }
        (NavTarget.target demoTarget) true false true
    ∧ resolveTargetFuel trivialEntryHooks (0 + 1) hookedRouter
        (NavTarget.target demoTarget) [] = Except.ok demoTarget :=
  ⟨(navigate_to_resolved_target_skips_hooks trivialEntryHooks (fun _ => none) []
      "NiceGUI" hookedRouter [("/services", 7)] (some (fun _ => none)) demoTarget
      true false true).1,
   (navigate_to_resolved_target_skips_hooks trivialEntryHooks (fun _ => none) []
      "NiceGUI" hookedRouter [("/services", 7)] (some (fun _ => none)) demoTarget
      true false true).2 rfl 0 []⟩

/-! ### C6 — the redirect re-resolution cannot recurse unboundedly -/

/-- For an input that already is a `SinglePageTarget`, `resolve_target`
never recurses: the custom `_on_resolve` handler is consulted and otherwise
the target is returned as-is (lines 102-107), so the fuel is irrelevant. -/
theorem resolveTargetFuel_succ_target (ehook : EntryHookEnv) (n : Nat)
    (r : SinglePageRouter) (t : SinglePageTarget) (ud : UserData) :
    resolveTargetFuel ehook (n + 1) r (NavTarget.target t) ud
      = resolveTargetFuel ehook 1 r (NavTarget.target t) ud := rfl

/-- Every recursive call of `resolve_target` passes a `SinglePageTarget`
(the hook's output), which the recursive invocation returns immediately, so
two units of fuel always complete the computation. -/
theorem resolveTargetFuel_two_enough (ehook : EntryHookEnv) (n : Nat)
    (r : SinglePageRouter) (tgt : NavTarget) (ud : UserData) :
    resolveTargetFuel ehook (n + 2) r tgt ud = resolveTargetFuel ehook 2 r tgt ud := by
  cases tgt with
  | target t => rfl
  | str s =>
    simp only [resolveTargetFuel]

/-- A `SinglePageTarget` input is resolved within a single unit of fuel. -/
theorem resolveTargetFuel_one_target_no_fuel_error (ehook : EntryHookEnv)
    (r : SinglePageRouter) (t : SinglePageTarget) (ud : UserData) :
    resolveTargetFuel ehook 1 r (NavTarget.target t) ud
      ≠ Except.error ResolveErr.outOfFuel := by
  simp only [resolveTargetFuel]
  split <;> simp

/-- With fuel 2, `resolve_target` never reports fuel exhaustion: it always
terminates with a target or with the `AttributeError` of line 120. -/
theorem resolveTargetFuel_two_no_fuel_error (ehook : EntryHookEnv)
    (r : SinglePageRouter) (tgt : NavTarget) (ud : UserData) :
    resolveTargetFuel ehook 2 r tgt ud ≠ Except.error ResolveErr.outOfFuel := by
  cases tgt with
  | target t =>
    exact resolveTargetFuel_one_target_no_fuel_error ehook r t ud
  | str s =>
    simp only [resolveTargetFuel]
    repeat' split
    all_goals simp

/-- C6: the hook-driven redirect re-resolution of `resolve_target` is
bounded: whatever the registered `on_open` hooks do — including rewriting
`original_path` on every invocation — resolution terminates within a fixed
recursion budget of two nested calls (any fuel of at least 2 gives the same
result, and fuel exhaustion never occurs), because a restart re-enters
`resolve_target` with a `SinglePageTarget`, which returns without further
recursion. -/
theorem resolve_target_recursion_bounded (ehook : EntryHookEnv)
    (r : SinglePageRouter) (tgt : NavTarget) (ud : UserData) (n : Nat)
    (h : 2 ≤ n) :
    resolveTargetFuel ehook n r tgt ud = resolveTargetFuel ehook 2 r tgt ud
    ∧ resolveTargetFuel ehook n r tgt ud ≠ Except.error ResolveErr.outOfFuel := by
  obtain ⟨m, rfl⟩ : ∃ m, n = m + 2 := ⟨n - 2, by omega⟩
  refine ⟨resolveTargetFuel_two_enough ehook m r tgt ud, ?_⟩
  rw [resolveTargetFuel_two_enough]
  exact resolveTargetFuel_two_no_fuel_error ehook r tgt ud

/-- A router whose `_on_open` hook rewrites `original_path` on every single
invocation — the worst case for the redirect chain. -/
def rewritingRouter : SinglePageRouter :=
  { demoRouter with
      on_open := some (fun _ t => { t with original_path := t.original_path ++ "x" }) }

theorem resolve_target_recursion_bounded_witness :
    resolveTargetFuel trivialEntryHooks 5 rewritingRouter (NavTarget.str "/a") []
      = resolveTargetFuel trivialEntryHooks 2 rewritingRouter (NavTarget.str "/a") []
    ∧ resolveTargetFuel trivialEntryHooks 5 rewritingRouter (NavTarget.str "/a") []
      ≠ Except.error ResolveErr.outOfFuel :=
  resolve_target_recursion_bounded trivialEntryHooks rewritingRouter
    (NavTarget.str "/a") [] 5 (by decide)

/-! ### C1 — a hook rewriting `original_path` restarts resolution -/

/-- C1: during `resolve_target` of a URL string, as soon as any hook of the
chain — (a) the router instance's `_on_open`, (b) the matched route entry's
`on_open`, (c) an ancestor config's `on_open` — produces a target whose
`original_path` differs from the path that was resolved, the whole
resolution restarts from the top: `resolve_target` is called recursively on
the new target instead of running the remaining hooks (parts quantify over
the remaining hooks freely), and that recursive call returns the target for
the rewritten path, so the final result carries the rewritten
`original_path` (e.g. `/old` rewritten to `/new` ends with
`original_path = "/new"`). -/
theorem resolve_target_restarts_on_rewrite :
    (∀ (ehook : EntryHookEnv) (r : SinglePageRouter) (s : String) (ud : UserData)
        (fuel : Nat) (hk : UserData → SinglePageTarget → SinglePageTarget)
        (t1 : SinglePageTarget),
      r.on_resolve = none →
      r.on_open = some hk →
      (routerAssign r (r.router_config.resolve s)).router_path.isSome = true →
      hk ud (routerAssign r (r.router_config.resolve s)) = t1 →
      t1.original_path ≠ (routerAssign r (r.router_config.resolve s)).original_path →
      resolveTargetFuel ehook (fuel + 2) r (NavTarget.str s) ud
          = resolveTargetFuel ehook (fuel + 1) r (NavTarget.target t1) ud
        ∧ resolveTargetFuel ehook (fuel + 1) r (NavTarget.target t1) ud
          = Except.ok t1)
    ∧ (∀ (ehook : EntryHookEnv) (r : SinglePageRouter) (s : String) (ud : UserData)
        (fuel : Nat) (rp : RouterPath) (hid : Nat) (t2 : SinglePageTarget),
      r.on_resolve = none →
      r.on_open = none →
      (routerAssign r (r.router_config.resolve s)).router_path = some rp →
      rp.on_open_id = some hid →
      ehook hid (routerAssign r (r.router_config.resolve s)) ud = t2 →
      t2.original_path ≠ (routerAssign r (r.router_config.resolve s)).original_path →
      resolveTargetFuel ehook (fuel + 2) r (NavTarget.str s) ud
          = resolveTargetFuel ehook (fuel + 1) r (NavTarget.target t2) ud
        ∧ resolveTargetFuel ehook (fuel + 1) r (NavTarget.target t2) ud
          = Except.ok t2)
    ∧ (∀ (ehook : EntryHookEnv) (r : SinglePageRouter) (s : String) (ud : UserData)
        (fuel : Nat) (rp : RouterPath) (t3 : SinglePageTarget),
      r.on_resolve = none →
      r.on_open = none →
      (routerAssign r (r.router_config.resolve s)).router_path = some rp →
      rp.on_open_id = none →
      configOpenWalk (routerAssign r (r.router_config.resolve s)).original_path
          r.router_config.chain (routerAssign r (r.router_config.resolve s))
        = WalkRes.restart t3 →
      resolveTargetFuel ehook (fuel + 2) r (NavTarget.str s) ud
          = resolveTargetFuel ehook (fuel + 1) r (NavTarget.target t3) ud
        ∧ resolveTargetFuel ehook (fuel + 1) r (NavTarget.target t3) ud
          = Except.ok t3) := by
  refine ⟨?_, ?_, ?_⟩
  · intro ehook r s ud fuel hk t1 hres hopen hsome hhook hneq
    obtain ⟨rp, hrp⟩ := Option.isSome_iff_exists.mp hsome
    constructor
    · simp only [resolveTargetFuel, hres, hopen, hrp, hhook]
      rw [if_pos hneq]
    · simp only [resolveTargetFuel, hres]
  · intro ehook r s ud fuel rp hid t2 hres hopen hrp hoid hhook hneq
    constructor
    · simp only [resolveTargetFuel, hres, hopen, hrp, hoid, hhook]
      rw [if_neg (fun hcon => hcon rfl), if_pos hneq]
    · simp only [resolveTargetFuel, hres]
  · intro ehook r s ud fuel rp t3 hres hopen hrp hoid hwalk
    constructor
    · simp only [resolveTargetFuel, hres, hopen, hrp, hoid, hwalk]
      rw [if_neg (fun hcon => hcon rfl), if_neg (fun hcon => hcon rfl)]
    · simp only [resolveTargetFuel, hres]

/-- A router whose instance-level `_on_open` hook redirects every target to
`/new`. -/
def redirectRouterA : SinglePageRouter :=
  { demoRouter with
      on_open := some (fun _ t => { t with original_path := "/new" }) }

/-- The redirected target as produced by the instance-level hook. -/
def targetNewA : SinglePageTarget :=
  { demoResolve "/old" with original_path := "/new", router := some 0 }

/-- A route entry carrying `on_open` hook number 1. -/
def entryB : RouterPath :=
  { path := "/old", title := some "Old", is_outlet := false, on_open_id := some 1 }

/-- A resolver whose matched route entry carries hook number 1. -/
def resolveB (s : String) : SinglePageTarget :=
  { demoResolve s with router_path := some entryB }

/-- Entry-hook table where hook number 1 redirects to `/new`. -/
def entryHookB : EntryHookEnv :=
  fun hid t _ => if hid = 1 then { t with original_path := "/new" } else t

/-- A router whose matched route entry redirects via its `on_open` hook. -/
def redirectRouterB : SinglePageRouter :=
  { demoRouter with
      router_config :=
        { data := { demoConfigData with resolve := resolveB }, parent_chain := [] } }

/-- The redirected target as produced by the route-entry hook. -/
def targetNewB : SinglePageTarget :=
  { resolveB "/old" with original_path := "/new", router := some 0 }

/-- A router whose config-level `on_open` hook redirects every target to
`/new`. -/
def redirectRouterC : SinglePageRouter :=
  { demoRouter with
      router_config :=
        { data :=
            { demoConfigData with
                on_open := some (fun t => { t with original_path := "/new" }) }
          parent_chain := [] } }

/-- The redirected target as produced by the config-level hook. -/
def targetNewC : SinglePageTarget :=
  { demoResolve "/old" with original_path := "/new", router := some 0 }

theorem resolve_target_restarts_on_rewrite_witness :
    resolveTargetFuel trivialEntryHooks 2 redirectRouterA (NavTarget.str "/old") []
        = Except.ok targetNewA
    ∧ resolveTargetFuel entryHookB 2 redirectRouterB (NavTarget.str "/old") []
        = Except.ok targetNewB
    ∧ resolveTargetFuel trivialEntryHooks 2 redirectRouterC (NavTarget.str "/old") []
        = Except.ok targetNewC :=
  ⟨((resolve_target_restarts_on_rewrite.1 trivialEntryHooks redirectRouterA "/old" []
      0 (fun _ t => { t with original_path := "/new" }) targetNewA rfl rfl
      (by decide) (by decide) (by decide)).1).trans
    ((resolve_target_restarts_on_rewrite.1 trivialEntryHooks redirectRouterA "/old" []
      0 (fun _ t => { t with original_path := "/new" }) targetNewA rfl rfl
      (by decide) (by decide) (by decide)).2),
   ((resolve_target_restarts_on_rewrite.2.1 entryHookB redirectRouterB "/old" []
      0 entryB 1 targetNewB rfl rfl (by decide) rfl (by decide) (by decide)).1).trans
    ((resolve_target_restarts_on_rewrite.2.1 entryHookB redirectRouterB "/old" []
      0 entryB 1 targetNewB rfl rfl (by decide) rfl (by decide) (by decide)).2),
   ((resolve_target_restarts_on_rewrite.2.2 trivialEntryHooks redirectRouterC "/old" []
      0 demoEntry targetNewC rfl rfl (by decide) rfl (by rfl)).1).trans
    ((resolve_target_restarts_on_rewrite.2.2 trivialEntryHooks redirectRouterC "/old" []
      0 demoEntry targetNewC rfl rfl (by decide) rfl (by rfl)).2)⟩

/-! ### C4 — builder-less, fragment-less resolution renders "Page not found" -/

/-- C4: when resolution produces a valid target that has no builder and no
fragment (an unregistered path), `navigate_to` does not fail: it substitutes
the built-in not-found target — title exactly `"Page not found"`, builder
`_page_not_found` — and renders it through the normal content swap
(`clear` + `update_content`), still performing the target-url propagation
and the history push of an ordinary navigation. -/
theorem navigate_to_not_found_substitution (ehook : EntryHookEnv)
    (parent : Nat → Option Nat) (ambient : UserData) (app_config_title : String)
    (r : SinglePageRouter) (tgt : NavTarget) (sync history : Bool)
    (t : SinglePageTarget)
    (hres : resolveTargetFuel ehook 2 r tgt (handler_kwargs_base ambient r tgt)
      = Except.ok t)
    (hvalid : t.valid = true)
    (hb : t.builder = none)
    (hf : t.fragment = none) :
    navigateCore ehook parent ambient app_config_title r tgt sync history
      = Except.ok
          ((updateTargetUrlVisits parent r.id PATH_RESOLVING_MAX_RECURSION).map
              (fun i => Effect.setTargetUrl i t.original_path)
            ++ swapEffects r app_config_title pageNotFoundTarget
                (if history && r.use_browser_history then
                  pushStateCode t.original_path
                 else "") sync)
    ∧ pageNotFoundTarget.title = some "Page not found"
    ∧ pageNotFoundTarget.builder = some BuilderRef.pageNotFound
    ∧ Effect.updateContent r.id (some BuilderRef.pageNotFound)
          (some "Page not found") none sync
        ∈ swapEffects r app_config_title pageNotFoundTarget
            (if history && r.use_browser_history then
              pushStateCode t.original_path
             else "") sync := by
  refine ⟨?_, rfl, rfl, ?_⟩
  · simp [navigateCore, hres, hvalid, hb, hf]
  · simp [swapEffects, pageNotFoundTarget]

/-- A resolver on which no route matches: the produced target is valid but
carries neither a route entry nor a builder (the "not found is a normal
outcome" contract of the target resolver). -/
def notFoundResolve (s : String) : SinglePageTarget :=
  { original_path := s
    valid := true
    router_path := none
    builder := none
    title := none
    path_args := []
    query_args := []
    fragment := none
    router := none
    on_pre_update := none
    on_post_update := none }

def notFoundRouter : SinglePageRouter :=
  { demoRouter with
      router_config :=
        { data := { demoConfigData with resolve := notFoundResolve }
          parent_chain := [] } }

/-- What `resolve_target` produces for the unregistered path. -/
def notFoundResolvedTarget : SinglePageTarget :=
  { notFoundResolve "/does/not/exist" with router := some 0 }

theorem navigate_to_not_found_substitution_witness :
    navigateCore trivialEntryHooks (fun _ => none) [] "NiceGUI" notFoundRouter
        (NavTarget.str "/does/not/exist") false true
      = Except.ok
          ((updateTargetUrlVisits (fun _ => none) notFoundRouter.id
              PATH_RESOLVING_MAX_RECURSION).map
              (fun i => Effect.setTargetUrl i notFoundResolvedTarget.original_path)
            ++ swapEffects notFoundRouter "NiceGUI" pageNotFoundTarget
                (if true && notFoundRouter.use_browser_history then
                  pushStateCode notFoundResolvedTarget.original_path
                 else "") false)
    ∧ pageNotFoundTarget.title = some "Page not found"
    ∧ pageNotFoundTarget.builder = some BuilderRef.pageNotFound
    ∧ Effect.updateContent notFoundRouter.id (some BuilderRef.pageNotFound)
          (some "Page not found") none false
        ∈ swapEffects notFoundRouter "NiceGUI" pageNotFoundTarget
            (if true && notFoundRouter.use_browser_history then
              pushStateCode notFoundResolvedTarget.original_path
             else "") false :=
  navigate_to_not_found_substitution trivialEntryHooks (fun _ => none) [] "NiceGUI"
    notFoundRouter (NavTarget.str "/does/not/exist") false true
    notFoundResolvedTarget (by rfl) (by decide) (by decide) (by decide)
